import Mathlib

/-!
Shallow embedding of the roguelike dungeon crawler (Rust sources under src/),
with theorems checking the natural-language specification against the code.

Conventions of the embedding:
* Rust `i32` values are modeled as `Int` (no arithmetic in the relevant code
  paths ever approaches the `i32` overflow boundary, and none of the claims
  concerns wraparound), `u32`/`usize` as `Nat`.
* `&mut` state updates become explicit state passing: a Rust method that
  mutates `self` and `game` is a Lean function returning the updated values.
* A Rust `panic!`/`unwrap` on an index or `Option` is modeled by returning the
  input state unchanged on the impossible branch; every such branch is marked
  by a comment and is unreachable under the hypotheses of the theorems below.
* `tcod` colors are modeled as an enumeration of the named constants the code
  uses; message text is reproduced except that `{:?}` debug formatting of a
  whole object is rendered by the object name and apostrophes are elided.
-/

namespace Rogue

/-- Colors (tcod named color constants used by the embedded code). -/
inductive Color
  | WHITE
  | RED
  | GREEN
  | ORANGE
  | YELLOW
  | DARK_RED
  | LIGHT_GREEN
  | LIGHT_YELLOW
  | CYAN
deriving DecidableEq

/-- Equipment slots (item.rs `Slot`). -/
inductive Slot
  | LeftHand
  | RightHand
  | Head
  | Chest
  | Legs
  | Feet
  | Hands
  | Back
  | LeftFinger
  | RightFinger
deriving DecidableEq

/-- Display impl for Slot (item.rs). -/
def Slot.display : Slot → String
  | Slot.LeftHand => "left hand"
  | Slot.RightHand => "right hand"
  | Slot.Head => "head"
  | Slot.Chest => "chest"
  | Slot.Legs => "legs"
  | Slot.Feet => "feet"
  | Slot.Hands => "hands"
  | Slot.Back => "back"
  | Slot.LeftFinger => "left finger"
  | Slot.RightFinger => "right finger"

/-- Item tags (item.rs `Item`). -/
inductive Item
  | Heal
  | Lightning
  | Confuse
  | Fireball
  | Sword
  | Shield
deriving DecidableEq

/-- Equipment component (item.rs `Equipment`). -/
structure Equipment where
  slot : Slot
  equipped : Bool
  max_hp_bonus : Int
  power_bonus : Int
  defense_bonus : Int
  magic_bonus : Int
deriving DecidableEq

/-- Monster AI state (monster_ai.rs `Ai`); `Box<Ai>` is plain recursion here. -/
inductive Ai
  | Basic
  | Confused (previous_ai : Ai) (num_turns : Int)
deriving DecidableEq

/-- Death callback tag (object.rs `DeathCallback`). -/
inductive DeathCallback
  | Player
  | Monster
deriving DecidableEq

/-- Combat component (object.rs `Fighter`). -/
structure Fighter where
  base_max_hp : Int
  hp : Int
  base_defense : Int
  base_power : Int
  base_magic : Int
  xp : Int
  on_death : DeathCallback
deriving DecidableEq

/-- Generic game entity (object.rs `Object`). -/
structure Obj where
  x : Int
  y : Int
  char : Char
  color : Color
  name : String
  blocks : Bool
  alive : Bool
  fighter : Option Fighter
  ai : Option Ai
  item : Option Item
  equipment : Option Equipment
  always_visible : Bool
  level : Int
  poisoned : Bool
deriving DecidableEq

/-- Map tile (map.rs `Tile`). -/
structure Tile where
  blocked : Bool
  explored : Bool
  block_sight : Bool
deriving DecidableEq

/-- Tile::empty (map.rs). -/
def Tile.empty : Tile := { blocked := false, explored := false, block_sight := false }

/-- Tile::wall (map.rs). -/
def Tile.wall : Tile := { blocked := true, explored := false, block_sight := true }

/-- Map type (map.rs): 2d array of tiles, indexed `map[x][y]`. -/
abbrev Map := List (List Tile)

/-- Message log (message.rs `Messages`): a list of (text, color) pairs. -/
abbrev Messages := List (String × Color)

/-- Game session state (game.rs `Game`), omitting nothing the claims need. -/
structure Game where
  map : Map
  messages : Messages
  inventory : List Obj
  dungeon_level : Nat
deriving DecidableEq

/-- Messages::add (message.rs): push a (text, color) pair. -/
def Game.addMsg (g : Game) (m : String) (c : Color) : Game :=
  { g with messages := g.messages ++ [(m, c)] }

/-- Object::pos (object.rs). -/
def Obj.pos (o : Obj) : Int × Int := (o.x, o.y)

/-- Map tile lookup `map[x as usize][y as usize]`. Out-of-range or negative
coordinates panic in the source; they are modeled as a wall tile (every use in
the theorems below stays in range or is blocked anyway). -/
def tileAt (map : Map) (x y : Int) : Tile :=
  if 0 ≤ x ∧ 0 ≤ y then (map.getD x.toNat []).getD y.toNat Tile.wall else Tile.wall

/-- is_blocked (object.rs): map tile blocked, or some blocking object there. -/
def is_blocked (x y : Int) (map : Map) (objects : List Obj) : Bool :=
  (tileAt map x y).blocked || objects.any (fun object => object.blocks && decide (object.pos = (x, y)))

/-- move_by (object.rs): move object `id` by (dx, dy) unless the target tile
is blocked. An out-of-range `id` panics in the source and is modeled as a
no-op. -/
def move_by (id : Nat) (dx dy : Int) (map : Map) (objects : List Obj) : List Obj :=
  match objects[id]? with
  | none => objects
  | some o =>
    if is_blocked (o.x + dx) (o.y + dy) map objects then objects
    else objects.set id { o with x := o.x + dx, y := o.y + dy }

/-- Object::get_all_equipped (object.rs): only the player aggregates the
equipped items of the inventory; every other entity yields the empty list. -/
def Obj.get_all_equipped (o : Obj) (g : Game) : List Equipment :=
  if o.name = "player" then
    (g.inventory.filter
      (fun item => (item.equipment.map (fun e => e.equipped)).getD false)).filterMap
      (fun item => item.equipment)
  else []

/-- Object::power (object.rs): base power plus equipped power bonuses. -/
def Obj.power (o : Obj) (g : Game) : Int :=
  ((o.fighter.map (fun f => f.base_power)).getD 0)
    + ((o.get_all_equipped g).map (fun e => e.power_bonus)).sum

/-- Object::defense (object.rs): base defense plus equipped defense bonuses. -/
def Obj.defense (o : Obj) (g : Game) : Int :=
  ((o.fighter.map (fun f => f.base_defense)).getD 0)
    + ((o.get_all_equipped g).map (fun e => e.defense_bonus)).sum

/-- player_death (object.rs): log the death and turn the player into a corpse. -/
def player_death (player : Obj) (g : Game) : Obj × Game :=
  let g := g.addMsg ("You died!") Color.RED
  ({ player with char := '%', color := Color.DARK_RED }, g)

/-- monster_death (object.rs): log the kill and xp, turn the monster into a
non-blocking corpse with no fighter and no ai. The `fighter.unwrap()` in the
message is total on every call site (take_damage only calls it with a fighter
present); absence is modeled as xp 0. -/
def monster_death (monster : Obj) (g : Game) : Obj × Game :=
  let n := monster.name
  let xp := (monster.fighter.map (fun f => f.xp)).getD 0
  let g := g.addMsg (n ++ " is dead! You gain " ++ toString xp ++ " experience") Color.ORANGE
  ({ monster with
      char := '%'
      color := Color.DARK_RED
      blocks := false
      fighter := none
      ai := none
      name := "remains of " ++ n }, g)

/-- DeathCallback::callback (object.rs): dispatch on the tag. -/
def DeathCallback.callback : DeathCallback → Obj → Game → Obj × Game
  | DeathCallback.Player, o, g => player_death o g
  | DeathCallback.Monster, o, g => monster_death o g

/-- Object::take_damage (object.rs lines 90-107): subtract the damage from hp
when positive, then, if a fighter is present with hp ≤ 0, mark dead, run the
death callback and return the stored xp. -/
def Obj.take_damage (o : Obj) (damage : Int) (g : Game) : Obj × Game × Option Int :=
  let o :=
    if 0 < damage then
      { o with fighter := o.fighter.map (fun f => { f with hp := f.hp - damage }) }
    else o
  match o.fighter with
  | some fighter =>
    if fighter.hp ≤ 0 then
      let o := { o with alive := false }
      let (o, g) := fighter.on_death.callback o g
      (o, g, some fighter.xp)
    else (o, g, none)
  | none => (o, g, none)

/-- Object::attack (object.rs lines 109-128): damage = power - defense; when
positive log a hit message and apply take_damage (crediting returned xp to the
attacker), otherwise log a no-effect message. The attacker `unwrap` on xp
credit is total on every reachable call (the attacker has a fighter). -/
def Obj.attack (self : Obj) (target : Obj) (g : Game) : Obj × Obj × Game :=
  let damage := self.power g - target.defense g
  if 0 < damage then
    let g := g.addMsg (self.name ++ " attacks " ++ target.name ++ " for "
      ++ toString damage ++ " damage!") Color.WHITE
    let r := target.take_damage damage g
    match r.2.2 with
    | some xp =>
      ({ self with fighter := self.fighter.map (fun f => { f with xp := f.xp + xp }) },
        r.1, r.2.1)
    | none => (self, r.1, r.2.1)
  else
    (self, target,
      g.addMsg (self.name ++ " attacks " ++ target.name ++ " but it has no effect!") Color.WHITE)

/-- LEVEL_UP_BASE (object.rs). -/
def LEVEL_UP_BASE : Int := 200

/-- LEVEL_UP_FACTOR (object.rs). -/
def LEVEL_UP_FACTOR : Int := 150

/-- level_up (object.rs lines 410-454): threshold is computed from the level
before the increment; when xp reaches it the level is incremented, the menu
blocks until a choice is made (modeled by the `choice : Fin 3` argument, the
value the retry loop eventually accepts), the threshold is subtracted from xp
and exactly one of the three stat upgrades is applied. The player is
`objects[0]`; an empty roster (an index panic in the source) and a missing
fighter (an `unwrap` panic in the source) leave the state unchanged. -/
def level_up (choice : Fin 3) (g : Game) (objects : List Obj) : Game × List Obj :=
  match objects with
  | [] => (g, objects)
  | player :: rest =>
    let level_up_xp := LEVEL_UP_BASE + player.level * LEVEL_UP_FACTOR
    if level_up_xp ≤ (player.fighter.map (fun f => f.xp)).getD 0 then
      let player := { player with level := player.level + 1 }
      let g := g.addMsg ("Your skills have increased! You are now level "
        ++ toString player.level ++ "!") Color.YELLOW
      match player.fighter with
      | none => (g, player :: rest)
      | some f =>
        let f := { f with xp := f.xp - level_up_xp }
        let f :=
          if choice.val = 0 then { f with base_max_hp := f.base_max_hp + 20, hp := f.hp + 20 }
          else if choice.val = 1 then { f with base_power := f.base_power + 1 }
          else { f with base_defense := f.base_defense + 1 }
        (g, { player with fighter := some f } :: rest)
    else (g, objects)

/-- Level transition entry (object.rs `Transition`): a (minimum dungeon level,
value) pair. -/
structure Transition where
  level : Nat
  value : Nat
deriving DecidableEq

/-- from_dungeon_level (object.rs lines 459-465): scan the table from the end
and return the value of the first entry (hence the last in table order) whose
minimum level is at most the queried level, defaulting to 0. -/
def from_dungeon_level (table : List Transition) (level : Nat) : Nat :=
  ((table.reverse.find? (fun transition => decide (transition.level ≤ level))).map
    (fun transition => transition.value)).getD 0

/-- Modelled from the spec: the effective value at a depth is the value of the
last entry whose minimum-depth is at most the depth, or zero if none
qualifies. Stated for comparison with `from_dungeon_level`. -/
def threshold_table_spec (table : List Transition) (level : Nat) : Nat :=
  (((table.filter (fun t => decide (t.level ≤ level))).getLast?).map
    (fun t => t.value)).getD 0

/-- Room rectangle (map.rs `Rect`). -/
structure Rect where
  x1 : Int
  y1 : Int
  x2 : Int
  y2 : Int
deriving DecidableEq

/-- Rect::new (map.rs): top-left corner plus dimensions. -/
def Rect.new (x y w h : Int) : Rect :=
  { x1 := x, y1 := y, x2 := x + w, y2 := y + h }

/-- Rect::intersects_with (map.rs lines 78-84): inclusive-bounds overlap test. -/
def Rect.intersects_with (self other : Rect) : Bool :=
  decide (self.x1 ≤ other.x2) && decide (other.x1 ≤ self.x2)
    && decide (self.y1 ≤ other.y2) && decide (other.y1 ≤ self.y2)

/-- Room acceptance loop of make_map (map.rs lines 96-145): the candidate
rectangles drawn from the random source are taken as input (one per loop
iteration, covering every outcome of the rng); a candidate is skipped when it
intersects any previously accepted room, and appended otherwise. Carving,
object placement and tunnels do not feed back into room acceptance and are
omitted. -/
def make_map_rooms (candidates : List Rect) : List Rect :=
  candidates.foldl
    (fun rooms new_room =>
      let failed := rooms.any (fun other_room => new_room.intersects_with other_room)
      if failed then rooms else rooms ++ [new_room])
    []

/-- MAX_INVENTORY_SIZE (item.rs). -/
def MAX_INVENTORY_SIZE : Nat := 26

/-- Vec::swap_remove: remove index `i`, moving the last element into its
place. An out-of-range `i` panics in Rust; here it returns the list with the
last element dropped (never reached under the theorems below). -/
def swap_remove {α : Type} (l : List α) (i : Nat) : List α :=
  match l.getLast? with
  | none => l
  | some last => (l.set i last).dropLast

/-- get_equipped_in_slot (item.rs lines 196-208): index of the first inventory
entry that is equipped in the given slot. -/
def get_equipped_in_slot (slot : Slot) (inventory : List Obj) : Option Nat :=
  inventory.findIdx?
    (fun item => (item.equipment.map (fun e => e.equipped && decide (e.slot = slot))).getD false)

/-- Object::equip (object.rs lines 176-190): refuse non-items and
non-equipment with an error message; otherwise set the equipped flag (and log)
when it was clear. -/
def Obj.equip (o : Obj) (messages : Messages) : Obj × Messages :=
  if o.item.isNone then
    (o, messages ++ [("Cant equip " ++ o.name ++ " because it is not an item.", Color.RED)])
  else
    match o.equipment with
    | some equipment =>
      if equipment.equipped then (o, messages)
      else
        ({ o with equipment := some { equipment with equipped := true } },
          messages ++ [("Equipped " ++ o.name ++ " on " ++ equipment.slot.display ++ ".",
            Color.LIGHT_GREEN)])
    | none =>
      (o, messages ++ [("Cant equip " ++ o.name ++ " because its not equipment.", Color.RED)])

/-- pick_item_up (item.rs lines 89-114): reject with a message when the
inventory is at capacity; otherwise swap-remove the entity from the roster,
append it to the inventory, and auto-equip it when it is equipment whose slot
has no equipped occupant. An out-of-range `object_id` panics in the source and
leaves the state unchanged here. -/
def pick_item_up (object_id : Nat) (g : Game) (objects : List Obj) : Game × List Obj :=
  if MAX_INVENTORY_SIZE ≤ g.inventory.length then
    let n := ((objects[object_id]?).map (fun o => o.name)).getD ""
    (g.addMsg ("Your inventory is full! cannot pick up " ++ n ++ "!") Color.RED, objects)
  else
    match objects[object_id]? with
    | none => (g, objects)
    | some item =>
      let objects := swap_remove objects object_id
      let g := g.addMsg ("You picked up " ++ item.name ++ "!") Color.GREEN
      let index := g.inventory.length
      let slot := item.equipment.map (fun e => e.slot)
      let g := { g with inventory := g.inventory ++ [item] }
      match slot with
      | some slot =>
        if (get_equipped_in_slot slot g.inventory).isNone then
          match g.inventory[index]? with
          | some it =>
            let r := it.equip g.messages
            ({ g with inventory := g.inventory.set index r.1, messages := r.2 }, objects)
          | none => (g, objects)
        else (g, objects)
      | none => (g, objects)

/-- CONFUSE_NUM_TURNS (magic.rs). -/
def CONFUSE_NUM_TURNS : Int := 10

/-- AI replacement performed by cast_confuse (magic.rs lines 69-74) on its
target: wrap the current ai (Basic when absent) in Confused with
CONFUSE_NUM_TURNS. -/
def cast_confuse_new_ai (old_ai : Option Ai) : Ai :=
  Ai.Confused (old_ai.getD Ai.Basic) CONFUSE_NUM_TURNS

/-- ai_confused (monster_ai.rs lines 59-91): while the counter is not
negative, take one random step (the two `gen_range(-1, 2)` draws are the
`dx dy` arguments) and decrement; once negative, log the restoration message
and return the wrapped previous ai. -/
def ai_confused (monster_id : Nat) (g : Game) (objects : List Obj)
    (previous_ai : Ai) (num_turns : Int) (dx dy : Int) : Ai × Game × List Obj :=
  if 0 ≤ num_turns then
    (Ai.Confused previous_ai (num_turns - 1), g, move_by monster_id dx dy g.map objects)
  else
    let n := ((objects[monster_id]?).map (fun o => o.name)).getD ""
    (previous_ai, g.addMsg ("The " ++ n ++ " is no longer confused!") Color.RED, objects)

/-- One ai_take_turn evaluation (monster_ai.rs lines 23-37) of a monster whose
ai is Confused: dispatch to ai_confused with the pair of random draws. A
non-Confused ai is left untouched (the Basic arm, ai_basic, is outside the
scope of the claims; the iterations proved below never evaluate it). -/
def eval_confused (id : Nat) (dxy : Int × Int) :
    Ai × Game × List Obj → Ai × Game × List Obj
  | (Ai.Confused p n, g, objs) => ai_confused id g objs p n dxy.1 dxy.2
  | st => st

/-- Iterate `eval_confused` k times; `rng j` supplies the two random draws of
evaluation j+1. -/
def run_ai (id : Nat) (rng : Nat → Int × Int) :
    Nat → Ai × Game × List Obj → Ai × Game × List Obj
  | 0, st => st
  | k + 1, st => eval_confused id (rng k) (run_ai id rng k st)

/-- PlayerAction (object.rs). -/
inductive PlayerAction
  | TookTurn
  | DidntTakeTurn
  | Exit
deriving DecidableEq

/-- The input alternatives distinguished by the match in handle_keys
(graphics.rs lines 218-343), one constructor per arm; numpad aliases of an
arrow arm are folded into it, `kOther` is the catch-all arm (any other key, or
an action key while the player is dead). -/
inductive KeyCmd
  | kAltEnter
  | kEscape
  | kUp
  | kDown
  | kLeft
  | kRight
  | kHome
  | kPageUp
  | kEnd
  | kPageDown
  | kNumPad5
  | kG
  | kD
  | kI
  | kC
  | kLess
  | kOther
deriving DecidableEq

/-- The PlayerAction returned by each arm of handle_keys (graphics.rs lines
211-344). In the source every arm ends in a constant PlayerAction literal,
independent of the side effects performed in the arm (in particular the pickup
arm returns the same value whether the pickup succeeds, fails on a full
inventory, or finds no item, and the stairs arm returns the same value whether
or not the player stands on the stairs); the arms for movement, wait, pickup,
menus, character screen and stairs require `player_alive`, otherwise the
catch-all arm applies. -/
def handle_keys_action : KeyCmd → Bool → PlayerAction
  | KeyCmd.kAltEnter, _ => PlayerAction.DidntTakeTurn
  | KeyCmd.kEscape, _ => PlayerAction.Exit
  | KeyCmd.kUp, true => PlayerAction.TookTurn
  | KeyCmd.kDown, true => PlayerAction.TookTurn
  | KeyCmd.kLeft, true => PlayerAction.TookTurn
  | KeyCmd.kRight, true => PlayerAction.TookTurn
  | KeyCmd.kHome, true => PlayerAction.TookTurn
  | KeyCmd.kPageUp, true => PlayerAction.TookTurn
  | KeyCmd.kEnd, true => PlayerAction.TookTurn
  | KeyCmd.kPageDown, true => PlayerAction.TookTurn
  | KeyCmd.kNumPad5, true => PlayerAction.TookTurn
  | KeyCmd.kG, true => PlayerAction.DidntTakeTurn
  | KeyCmd.kD, true => PlayerAction.DidntTakeTurn
  | KeyCmd.kI, true => PlayerAction.DidntTakeTurn
  | KeyCmd.kC, true => PlayerAction.DidntTakeTurn
  | KeyCmd.kLess, true => PlayerAction.DidntTakeTurn
  | _, _ => PlayerAction.DidntTakeTurn

/-- Monster-phase gate of play_game (game.rs lines 162-176): an Exit action
breaks out of the loop before the phase; otherwise the monsters act exactly
when the player is alive and the action is not DidntTakeTurn. -/
def monster_phase_runs (player_alive : Bool) (action : PlayerAction) : Bool :=
  if action = PlayerAction.Exit then false
  else player_alive && decide (action ≠ PlayerAction.DidntTakeTurn)

/-!  Helper lemmas (shared between claims). -/

/-- Scanning a reversed list for the first hit finds the last hit in the
original order. -/
theorem reverse_find?_eq_filter_getLast? {α : Type} (p : α → Bool) (l : List α) :
    l.reverse.find? p = (l.filter p).getLast? := by
  induction l with
  | nil => rfl
  | cons a t ih =>
    rw [List.reverse_cons, List.find?_append, ih, List.filter_cons]
    cases hm : t.filter p with
    | nil => by_cases hpa : p a <;> simp [hpa, List.find?_cons]
    | cons x xs =>
      have hsome : ((x :: xs).getLast?).isSome := by
        rw [List.getLast?_isSome]
        simp
      by_cases hpa : p a <;>
        simp [hpa, List.getLast?_cons_cons, Option.or_of_isSome hsome]

/-- The inclusive-bounds rectangle overlap test is symmetric. -/
theorem intersects_with_comm (a b : Rect) : a.intersects_with b = b.intersects_with a := by
  rw [Bool.eq_iff_iff]
  simp only [Rect.intersects_with, Bool.and_eq_true, decide_eq_true_eq]
  tauto

/-- Invariant of the room-acceptance fold: pairwise non-intersection of the
accumulator is preserved. -/
theorem make_map_rooms_aux (cs : List Rect) (acc : List Rect)
    (hacc : acc.Pairwise (fun a b => a.intersects_with b = false)) :
    (cs.foldl
      (fun rooms new_room =>
        let failed := rooms.any (fun other_room => new_room.intersects_with other_room)
        if failed then rooms else rooms ++ [new_room])
      acc).Pairwise (fun a b => a.intersects_with b = false) := by
  induction cs generalizing acc with
  | nil => simpa using hacc
  | cons c cs ih =>
    simp only [List.foldl_cons]
    by_cases hfail : acc.any (fun other_room => c.intersects_with other_room)
    · simp only [hfail, if_true]
      exact ih acc hacc
    · simp only [hfail, if_false]
      refine ih _ (List.pairwise_append.mpr ⟨hacc, List.pairwise_singleton _ _, ?_⟩)
      intro a ha b hb
      have hb1 : b = c := by simpa using hb
      have h2 := List.any_eq_false.mp (Bool.eq_false_iff.mpr hfail) a ha
      subst hb1
      rw [intersects_with_comm]
      simpa using h2

/-- The accepted room list is pairwise non-intersecting. -/
theorem make_map_rooms_pairwise (cands : List Rect) :
    (make_map_rooms cands).Pairwise (fun a b => a.intersects_with b = false) :=
  make_map_rooms_aux cands [] (List.Pairwise.nil)

/-- C7: for every sequence of candidate rectangles drawn by the random
source, any two distinct rooms accepted by the make_map generation loop fail
the inclusive-bounds intersection test. -/
theorem make_map_accepted_rooms_disjoint (cands : List Rect) (i j : Nat)
    (hi : i < (make_map_rooms cands).length) (hj : j < (make_map_rooms cands).length)
    (hij : i ≠ j) :
    ((make_map_rooms cands).get ⟨i, hi⟩).intersects_with
      ((make_map_rooms cands).get ⟨j, hj⟩) = false := by
  have hp := make_map_rooms_pairwise cands
  rcases Nat.lt_or_ge i j with hlt | hge
  · exact List.pairwise_iff_get.mp hp ⟨i, hi⟩ ⟨j, hj⟩ hlt
  · have hlt2 : j < i := Nat.lt_of_le_of_ne hge (fun h => hij h.symm)
    rw [intersects_with_comm]
    exact List.pairwise_iff_get.mp hp ⟨j, hj⟩ ⟨i, hi⟩ hlt2

/-- C7 witness: two far-apart candidate rooms are both accepted and do not
intersect. -/
theorem make_map_accepted_rooms_disjoint_witness :
    ((make_map_rooms [Rect.new 0 0 2 2, Rect.new 10 10 2 2]).get ⟨0, by decide⟩).intersects_with
      ((make_map_rooms [Rect.new 0 0 2 2, Rect.new 10 10 2 2]).get ⟨1, by decide⟩) = false :=
  make_map_accepted_rooms_disjoint [Rect.new 0 0 2 2, Rect.new 10 10 2 2] 0 1
    (by decide) (by decide) (by decide)

/-!  Concrete sample data used by witnesses and counterexamples. -/

/-- Fighter block of a freshly spawned orc (map.rs place_objects). -/
def orcFighterC : Fighter :=
  { base_max_hp := 20
    hp := 20
    base_defense := 0
    base_power := 4
    base_magic := 0
    xp := 35
    on_death := DeathCallback.Monster }

/-- A freshly spawned orc entity (map.rs place_objects). -/
def orcObj : Obj :=
  { x := 1
    y := 1
    char := 'o'
    color := Color.GREEN
    name := "orc"
    blocks := true
    alive := true
    fighter := some orcFighterC
    ai := some Ai.Basic
    item := none
    equipment := none
    always_visible := false
    level := 1
    poisoned := false }

/-- A minimal game session: one open tile, no messages, empty inventory. -/
def emptyGame : Game :=
  { map := [[Tile.empty]]
    messages := []
    inventory := []
    dungeon_level := 1 }

/-!  C5 — threshold table lookups. -/

/-- C5: over a threshold table sorted ascending by minimum depth,
from_dungeon_level agrees with the spec-side reading (value of the last entry
whose minimum depth is at most the queried depth), returns 0 when the depth is
below every entry, and any nonzero result is the value of an entry whose
minimum depth does not exceed the queried depth. -/
theorem from_dungeon_level_matches_threshold_spec (table : List Transition) (level : Nat)
    (_hsorted : table.Pairwise (fun a b => a.level ≤ b.level)) :
    from_dungeon_level table level = threshold_table_spec table level
    ∧ ((∀ t ∈ table, level < t.level) → from_dungeon_level table level = 0)
    ∧ (from_dungeon_level table level ≠ 0 →
        ∃ t ∈ table, t.level ≤ level ∧ from_dungeon_level table level = t.value) := by
  have key : from_dungeon_level table level = threshold_table_spec table level := by
    unfold from_dungeon_level threshold_table_spec
    rw [reverse_find?_eq_filter_getLast?]
  refine ⟨key, ?_, ?_⟩
  · intro h
    unfold from_dungeon_level
    have hnone : table.reverse.find? (fun transition => decide (transition.level ≤ level))
        = none := by
      rw [List.find?_eq_none]
      intro x hx
      simp only [decide_eq_true_eq]
      exact Nat.not_le_of_lt (h x (List.mem_reverse.mp hx))
    rw [hnone]
    rfl
  · intro hne
    unfold from_dungeon_level at hne ⊢
    cases hfind : table.reverse.find? (fun transition => decide (transition.level ≤ level)) with
    | none => rw [hfind] at hne; simp at hne
    | some t =>
      refine ⟨t, List.mem_reverse.mp (List.mem_of_find?_eq_some hfind), ?_, ?_⟩
      · simpa using List.find?_some hfind
      · rfl

/-- The troll-chance threshold table (map.rs place_objects). -/
def trollTable : List Transition := [⟨3, 15⟩, ⟨5, 30⟩, ⟨7, 60⟩]

/-- C5 witness: on the troll table, depth 5 yields the depth-5 entry value 30
and depth 2 (below the lowest entry) yields 0. -/
theorem from_dungeon_level_matches_threshold_spec_witness :
    from_dungeon_level trollTable 5 = threshold_table_spec trollTable 5
    ∧ from_dungeon_level trollTable 5 = 30
    ∧ from_dungeon_level trollTable 2 = 0 :=
  ⟨(from_dungeon_level_matches_threshold_spec trollTable 5 (by decide)).1,
    by decide, by decide⟩

/-!  C9 — monster death is terminal. -/

/-- C9: after monster_death the entity carries no fighter and no ai and does
not block; and take_damage on any entity without a fighter returns the entity
and game unchanged with no xp — so a monster killed once can never pay out xp
again. -/
theorem monster_death_disables_combat (o : Obj) (g g2 : Game) (d : Int) :
    (monster_death o g).1.fighter = none
    ∧ (monster_death o g).1.ai = none
    ∧ (monster_death o g).1.blocks = false
    ∧ (∀ o2 : Obj, o2.fighter = none → o2.take_damage d g2 = (o2, g2, none)) := by
  refine ⟨rfl, rfl, rfl, ?_⟩
  intro o2 h2
  obtain ⟨x, y, ch, co, nm, bl, al, fi, ai1, it, eqp, av, lv, po⟩ := o2
  cases fi with
  | some f => simp at h2
  | none =>
    unfold Obj.take_damage
    by_cases hd : 0 < d
    · rw [if_pos hd]
      rfl
    · rw [if_neg hd]

/-- C9 witness: the orc corpse absorbs a further 40 damage with no state
change and no xp. -/
theorem monster_death_disables_combat_witness :
    ((monster_death orcObj emptyGame).1.take_damage 40 emptyGame)
      = ((monster_death orcObj emptyGame).1, emptyGame, none) := by
  have h := monster_death_disables_combat orcObj emptyGame emptyGame 40
  exact h.2.2.2 _ h.1

/-!  C1 — which inputs consume a turn. -/

/-- C1 counterexample: the pickup arm and the stairs-descend arm of
handle_keys resolve to DidntTakeTurn (graphics.rs lines 272-281 and 332-341),
not TookTurn, and do not trigger the monster phase — contrary to the claim
that pickup and stairs-descend count as took-turn. -/
theorem pickup_and_stairs_do_not_take_turn :
    handle_keys_action KeyCmd.kG true = PlayerAction.DidntTakeTurn
    ∧ handle_keys_action KeyCmd.kLess true = PlayerAction.DidntTakeTurn
    ∧ handle_keys_action KeyCmd.kG true ≠ PlayerAction.TookTurn
    ∧ monster_phase_runs true (handle_keys_action KeyCmd.kG true) = false
    ∧ monster_phase_runs true (handle_keys_action KeyCmd.kLess true) = false := by
  decide

/-- C1 (amended): with the player alive, exactly the eight
movement-with-implicit-attack directions and the numpad-5 wait resolve to
TookTurn and trigger the monster phase; pickup (successful or not),
stairs-descend, the inventory menus (whether or not a drop or use happens),
the character screen, the fullscreen toggle and unmatched keys resolve to
DidntTakeTurn and leave the monster phase untriggered; no input takes a turn
while the player is dead. -/
theorem handle_keys_turn_classification (k : KeyCmd) (alive : Bool) :
    (handle_keys_action k alive = PlayerAction.TookTurn ↔
      (alive = true ∧ (k = KeyCmd.kUp ∨ k = KeyCmd.kDown ∨ k = KeyCmd.kLeft ∨ k = KeyCmd.kRight
        ∨ k = KeyCmd.kHome ∨ k = KeyCmd.kPageUp ∨ k = KeyCmd.kEnd ∨ k = KeyCmd.kPageDown
        ∨ k = KeyCmd.kNumPad5)))
    ∧ (monster_phase_runs alive (handle_keys_action k alive) = true ↔
        (alive = true ∧ handle_keys_action k alive = PlayerAction.TookTurn)) := by
  cases k <;> cases alive <;> decide

/-!  C4 — take_damage contract. -/

/-- Death callbacks never touch the alive flag (they only transform the
corpse and log). -/
theorem callback_preserves_alive (c : DeathCallback) (o : Obj) (g : Game) :
    (c.callback o g).1.alive = o.alive := by
  cases c <;> rfl

/-- take_damage on a surviving fighter: positive damage with positive
remaining hp subtracts exactly the damage and returns no xp. -/
theorem take_damage_survive (o : Obj) (f : Fighter) (g : Game) (d : Int)
    (hf : o.fighter = some f) (hd : 0 < d) (hs : 0 < f.hp - d) :
    o.take_damage d g = ({ o with fighter := some { f with hp := f.hp - d } }, g, none) := by
  have hns : ¬ (f.hp - d ≤ 0) := by omega
  simp [Obj.take_damage, hf, hd, hns]

/-- The player fighter of game start (game.rs new_game) after its hp has been
driven to 0 and 5 xp were accumulated. -/
def deadPlayerFighter : Fighter :=
  { base_max_hp := 100
    hp := 0
    base_defense := 1
    base_power := 2
    base_magic := 0
    xp := 5
    on_death := DeathCallback.Player }

/-- A dead player entity: hp 0, alive already false, fighter still present
(player_death removes no component). -/
def deadPlayerObj : Obj :=
  { x := 0
    y := 0
    char := '@'
    color := Color.WHITE
    name := "player"
    blocks := true
    alive := false
    fighter := some deadPlayerFighter
    ai := none
    item := none
    equipment := none
    always_visible := false
    level := 1
    poisoned := false }

/-- C4 counterexample: on an entity whose fighter already has hp 0, zero
damage is not a no-op — the death check still fires, the entity is re-marked
dead, the player death behavior runs (logging the death message and turning
the glyph into a corpse) and the stored xp is returned instead of None. -/
theorem take_damage_zero_on_dead_entity_not_noop :
    (deadPlayerObj.take_damage 0 emptyGame).2.2 = some 5
    ∧ (deadPlayerObj.take_damage 0 emptyGame).2.2 ≠ none
    ∧ (deadPlayerObj.take_damage 0 emptyGame).1.char = '%'
    ∧ (deadPlayerObj.take_damage 0 emptyGame).2.1.messages = [("You died!", Color.RED)] := by
  decide

/-- C4 (amended): for every entity whose fighter has positive hp, nonpositive
damage is a no-op (entity, game and returned value unchanged, None returned);
and for positive damage driving hp to 0 or below, the entity is marked dead,
its on_death behavior runs on the damaged corpse, and its stored xp is
returned. The no-op half genuinely needs the positive-hp precondition: the
code never checks aliveness, as the counterexample shows. -/
theorem take_damage_spec (o : Obj) (f : Fighter) (g : Game) (d : Int)
    (hf : o.fighter = some f) :
    (0 < f.hp → d ≤ 0 → o.take_damage d g = (o, g, none))
    ∧ (0 < d → f.hp - d ≤ 0 →
        o.take_damage d g =
          ((f.on_death.callback
              { o with fighter := some { f with hp := f.hp - d }, alive := false } g).1,
            (f.on_death.callback
              { o with fighter := some { f with hp := f.hp - d }, alive := false } g).2,
            some f.xp)
        ∧ (o.take_damage d g).1.alive = false) := by
  constructor
  · intro hhp hd
    have h1 : ¬ 0 < d := by omega
    have h2 : ¬ f.hp ≤ 0 := by omega
    simp [Obj.take_damage, h1, hf, h2]
  · intro hd hhp
    have hmain : o.take_damage d g =
        ((f.on_death.callback
            { o with fighter := some { f with hp := f.hp - d }, alive := false } g).1,
          (f.on_death.callback
            { o with fighter := some { f with hp := f.hp - d }, alive := false } g).2,
          some f.xp) := by
      simp [Obj.take_damage, hd, hf, hhp]
    refine ⟨hmain, ?_⟩
    rw [hmain]
    exact callback_preserves_alive _ _ _

/-- C4 witness: an orc (20 hp) shrugs off -5 damage unchanged; 25 damage
kills it, marking it dead and returning its 35 xp. -/
theorem take_damage_spec_witness :
    orcObj.take_damage (-5) emptyGame = (orcObj, emptyGame, none)
    ∧ (orcObj.take_damage 25 emptyGame).2.2 = some 35
    ∧ (orcObj.take_damage 25 emptyGame).1.alive = false := by
  refine ⟨(take_damage_spec orcObj orcFighterC emptyGame (-5) rfl).1 (by decide) (by decide),
    ?_, ((take_damage_spec orcObj orcFighterC emptyGame 25 rfl).2 (by decide) (by decide)).2⟩
  rw [((take_damage_spec orcObj orcFighterC emptyGame 25 rfl).2 (by decide) (by decide)).1]
  rfl

/-!  C3 — leveling. -/

/-- A level-1 player fighter holding exactly the threshold 350 xp. -/
def xp350Fighter : Fighter :=
  { base_max_hp := 100
    hp := 70
    base_defense := 1
    base_power := 2
    base_magic := 0
    xp := 350
    on_death := DeathCallback.Player }

/-- A level-1 player entity with 350 xp. -/
def xp350Player : Obj :=
  { x := 0
    y := 0
    char := '@'
    color := Color.WHITE
    name := "player"
    blocks := true
    alive := true
    fighter := some xp350Fighter
    ai := none
    item := none
    equipment := none
    always_visible := false
    level := 1
    poisoned := false }

/-- A level-1 player entity with only 200 xp (below the 350 threshold). -/
def xp200Player : Obj :=
  { xp350Player with fighter := some { xp350Fighter with xp := 200 } }

/-- C3 counterexample: the Constitution choice adds 20 to max hp (and 20 to
current hp); from base max-hp 100 the result is 120, not the 80 the claimed
minus-20 would give. -/
theorem level_up_constitution_adds_max_hp :
    (((level_up 0 emptyGame [xp350Player]).2.head?.bind (fun o => o.fighter)).map
        (fun f => f.base_max_hp)) = some 120
    ∧ (((level_up 0 emptyGame [xp350Player]).2.head?.bind (fun o => o.fighter)).map
        (fun f => f.hp)) = some 90
    ∧ ((120 : Int) ≠ 100 - 20) := by
  decide

/-- C3 (amended): with the threshold 200 + level * 150 computed from the
pre-increment level, a player below it is left unchanged; at or above it the
level is incremented, the message logged, exactly the threshold subtracted
from xp (surplus carries forward), and the blocking menu choice (modeled by
the `choice` argument) applies exactly one of: +20 max-hp together with +20
current hp, or +1 power, or +1 defense. -/
theorem level_up_spec (choice : Fin 3) (g : Game) (p : Obj) (rest : List Obj) (f : Fighter)
    (hf : p.fighter = some f) :
    (f.xp < LEVEL_UP_BASE + p.level * LEVEL_UP_FACTOR →
      level_up choice g (p :: rest) = (g, p :: rest))
    ∧ (LEVEL_UP_BASE + p.level * LEVEL_UP_FACTOR ≤ f.xp →
        level_up choice g (p :: rest) =
          (g.addMsg ("Your skills have increased! You are now level "
              ++ toString (p.level + 1) ++ "!") Color.YELLOW,
            { p with
                level := p.level + 1
                fighter := some (
                  if choice.val = 0 then
                    { f with
                        xp := f.xp - (LEVEL_UP_BASE + p.level * LEVEL_UP_FACTOR)
                        base_max_hp := f.base_max_hp + 20
                        hp := f.hp + 20 }
                  else if choice.val = 1 then
                    { f with
                        xp := f.xp - (LEVEL_UP_BASE + p.level * LEVEL_UP_FACTOR)
                        base_power := f.base_power + 1 }
                  else
                    { f with
                        xp := f.xp - (LEVEL_UP_BASE + p.level * LEVEL_UP_FACTOR)
                        base_defense := f.base_defense + 1 }) } :: rest)) := by
  constructor
  · intro hlt
    have h1 : ¬ (LEVEL_UP_BASE + p.level * LEVEL_UP_FACTOR
        ≤ (p.fighter.map (fun f2 => f2.xp)).getD 0) := by
      rw [hf]
      simpa using hlt
    simp [level_up, h1]
  · intro hge
    have h1 : LEVEL_UP_BASE + p.level * LEVEL_UP_FACTOR
        ≤ (p.fighter.map (fun f2 => f2.xp)).getD 0 := by
      rw [hf]
      simpa using hge
    rcases choice with ⟨cv, hcv⟩
    interval_cases cv <;> simp [level_up, h1, hf] <;>
      exact fun h => absurd h (not_lt.mpr hge)

/-- C3 witness: a level-1 player with 200 xp does not level; one with 350 xp
levels to 2 with xp left at 0. -/
theorem level_up_spec_witness :
    level_up 1 emptyGame [xp200Player] = (emptyGame, [xp200Player])
    ∧ (((level_up 1 emptyGame [xp350Player]).2.head?.bind (fun o => o.fighter)).map
        (fun f => f.xp)) = some 0
    ∧ ((level_up 1 emptyGame [xp350Player]).2.head?.map (fun o => o.level)) = some 2 := by
  refine ⟨(level_up_spec 1 emptyGame xp200Player []
      { xp350Fighter with xp := 200 } rfl).1 (by decide), ?_, ?_⟩ <;> decide

/-!  C6 — attack resolution. -/

/-- C6: attack damage is the attacker effective power minus the defender
effective defense, with no randomness; positive damage is applied in full to
a surviving defender together with the hit message, nonpositive damage leaves
the defender untouched and logs the no-effect message. -/
theorem attack_spec (attacker target : Obj) (ft : Fighter) (g : Game)
    (_ha : attacker.fighter.isSome = true) (ht : target.fighter = some ft) :
    (0 < attacker.power g - target.defense g →
      0 < ft.hp - (attacker.power g - target.defense g) →
      attacker.attack target g =
        (attacker,
          { target with
              fighter := some { ft with hp := ft.hp - (attacker.power g - target.defense g) } },
          g.addMsg (attacker.name ++ " attacks " ++ target.name ++ " for "
            ++ toString (attacker.power g - target.defense g) ++ " damage!") Color.WHITE))
    ∧ (attacker.power g - target.defense g ≤ 0 →
        attacker.attack target g =
          (attacker, target,
            g.addMsg (attacker.name ++ " attacks " ++ target.name
              ++ " but it has no effect!") Color.WHITE)) := by
  constructor
  · intro hpos hsur
    simp only [Obj.attack]
    rw [if_pos hpos]
    rw [take_damage_survive target ft _ _ ht hpos hsur]
  · intro hneg
    have h1 : ¬ (0 < attacker.power g - target.defense g) := by omega
    simp only [Obj.attack]
    rw [if_neg h1]

/-- A defender fighter with defense 1 and 10 hp. -/
def ratFighter : Fighter :=
  { base_max_hp := 10
    hp := 10
    base_defense := 1
    base_power := 0
    base_magic := 0
    xp := 0
    on_death := DeathCallback.Monster }

/-- A defender entity carrying `ratFighter`. -/
def ratObj : Obj :=
  { orcObj with name := "rat", fighter := some ratFighter }

/-- An attacker with power 1. -/
def weakObj : Obj :=
  { orcObj with name := "mouse", fighter := some { orcFighterC with base_power := 1 } }

/-- A defender with defense 4. -/
def tankObj : Obj :=
  { orcObj with
      name := "golem"
      fighter := some { ratFighter with base_defense := 4, hp := 30 } }

/-- C6 witness: power 4 against defense 1 deals exactly 3 (hp 10 drops to 7);
power 1 against defense 4 leaves the defender unchanged and logs the
no-effect message. -/
theorem attack_spec_witness :
    ((orcObj.attack ratObj emptyGame).2.1.fighter.map (fun f => f.hp)) = some 7
    ∧ (weakObj.attack tankObj emptyGame).2.1 = tankObj
    ∧ (weakObj.attack tankObj emptyGame).2.2.messages
        = [("mouse attacks golem but it has no effect!", Color.WHITE)] := by
  have h1 := (attack_spec orcObj ratObj ratFighter emptyGame (by decide) rfl).1
    (by decide) (by decide)
  have h2 := (attack_spec weakObj tankObj { ratFighter with base_defense := 4, hp := 30 }
    emptyGame (by decide) rfl).2 (by decide)
  rw [h1, h2]
  refine ⟨by decide, rfl, by decide⟩

/-!  C8 and C10 — pickup. -/

/-- swap_remove shortens a nonempty list by one. -/
theorem swap_remove_length {α : Type} (l : List α) (i : Nat) (h : l ≠ []) :
    (swap_remove l i).length = l.length - 1 := by
  unfold swap_remove
  cases hl : l.getLast? with
  | none => exact absurd (List.getLast?_eq_none_iff.mp hl) h
  | some a => simp

/-- swap_remove leaves every index other than the removed one (and below the
new length) unchanged. -/
theorem swap_remove_getElem_ne {α : Type} (l : List α) (i j : Nat)
    (hj : j < l.length - 1) (hne : j ≠ i) :
    (swap_remove l i)[j]? = l[j]? := by
  have hne2 : l ≠ [] := by
    intro h
    subst h
    simp at hj
  unfold swap_remove
  cases hl : l.getLast? with
  | none => exact absurd (List.getLast?_eq_none_iff.mp hl) hne2
  | some a =>
    dsimp only
    rw [List.dropLast_eq_take, List.getElem?_take, List.length_set,
      if_pos hj, List.getElem?_set_ne (fun h => hne h.symm)]

/-- swap_remove moves the last element into the removed index (when that
index is not itself the last). -/
theorem swap_remove_getElem_at {α : Type} (l : List α) (i : Nat)
    (hi : i < l.length - 1) :
    (swap_remove l i)[i]? = l[l.length - 1]? := by
  have hne2 : l ≠ [] := by
    intro h
    subst h
    simp at hi
  unfold swap_remove
  cases hl : l.getLast? with
  | none => exact absurd (List.getLast?_eq_none_iff.mp hl) hne2
  | some a =>
    dsimp only
    rw [List.dropLast_eq_take, List.getElem?_take, List.length_set, if_pos hi,
      List.getElem?_set_self (by omega), ← hl, List.getLast?_eq_getElem?]

/-- Setting the position just after a list, over a one-element append,
replaces that element. -/
theorem set_concat_length {α : Type} (l : List α) (a b : α) :
    (l ++ [a]).set l.length b = l ++ [b] := by
  induction l with
  | nil => rfl
  | cons x xs ih =>
    show x :: ((xs ++ [a]).set xs.length b) = x :: (xs ++ [b])
    rw [ih]

/-- The roster result of a successful pickup is the swap-remove of the
picked index, in every equipment configuration. -/
theorem pick_item_up_roster (object_id : Nat) (g : Game) (objects : List Obj) (item : Obj)
    (hlen : g.inventory.length < MAX_INVENTORY_SIZE)
    (hid : objects[object_id]? = some item) :
    (pick_item_up object_id g objects).2 = swap_remove objects object_id := by
  have h1 : ¬ (MAX_INVENTORY_SIZE ≤ g.inventory.length) := by omega
  unfold pick_item_up
  rw [if_neg h1]
  simp only [hid]
  cases he : item.equipment with
  | none => rfl
  | some e =>
    simp only [Option.map_some']
    split
    · split <;> rfl
    · rfl

/-- C10: a successful pickup removes the roster entry at the picked index via
swap-remove: the roster shrinks by one, the former last entry now sits at the
picked index (when that index was not the last), every other index keeps its
entry, and in particular the player stays at index 0 whenever the picked
index is nonzero. -/
theorem pick_item_up_swap_remove_frame (object_id : Nat) (g : Game) (objects : List Obj)
    (item : Obj) (hlen : g.inventory.length < MAX_INVENTORY_SIZE)
    (hid : objects[object_id]? = some item) :
    (pick_item_up object_id g objects).2.length = objects.length - 1
    ∧ (∀ j, j < objects.length - 1 → j ≠ object_id →
        (pick_item_up object_id g objects).2[j]? = objects[j]?)
    ∧ (object_id < objects.length - 1 →
        (pick_item_up object_id g objects).2[object_id]? = objects[objects.length - 1]?)
    ∧ (object_id ≠ 0 → (pick_item_up object_id g objects).2[0]? = objects[0]?) := by
  have hr := pick_item_up_roster object_id g objects item hlen hid
  have hlt : object_id < objects.length := (List.getElem?_eq_some.mp hid).1
  have hne : objects ≠ [] := by
    intro h
    subst h
    simp at hid
  rw [hr]
  refine ⟨swap_remove_length _ _ hne, ?_, ?_, ?_⟩
  · intro j hj hjne
    exact swap_remove_getElem_ne _ _ _ hj hjne
  · intro hi
    exact swap_remove_getElem_at _ _ hi
  · intro h0
    have h0lt : 0 < objects.length - 1 := by omega
    exact swap_remove_getElem_ne _ _ _ h0lt (fun h => h0 h.symm)

/-- Equipping an item-tagged, equipment-carrying, currently unequipped object
sets its equipped flag and logs the equip message. -/
theorem equip_unequipped (o : Obj) (e : Equipment) (msgs : Messages)
    (hit : o.item.isSome = true) (he : o.equipment = some e) (heq : e.equipped = false) :
    o.equip msgs = ({ o with equipment := some { e with equipped := true } },
      msgs ++ [("Equipped " ++ o.name ++ " on " ++ e.slot.display ++ ".",
        Color.LIGHT_GREEN)]) := by
  have hin : o.item.isNone = false := by
    cases h : o.item
    · rw [h] at hit
      simp at hit
    · rfl
  simp [Obj.equip, hin, he, heq]

/-- C8: a pickup attempt with a full inventory (26 items) is rejected with a
log message, changing neither inventory nor roster; otherwise the entity
leaves the roster by swap-remove and is appended to the inventory, and an
equipment-carrying entity (carrying an item tag and unequipped, as every
entity on the floor is) whose slot has no equipped occupant in the inventory
is equipped immediately on pickup. -/
theorem pick_item_up_spec (object_id : Nat) (g : Game) (objects : List Obj) :
    (MAX_INVENTORY_SIZE ≤ g.inventory.length →
      (pick_item_up object_id g objects).1.inventory = g.inventory
      ∧ (pick_item_up object_id g objects).2 = objects
      ∧ (pick_item_up object_id g objects).1.messages
          = g.messages ++ [("Your inventory is full! cannot pick up "
              ++ (((objects[object_id]?).map (fun o => o.name)).getD "") ++ "!", Color.RED)])
    ∧ (∀ item : Obj, g.inventory.length < MAX_INVENTORY_SIZE →
        objects[object_id]? = some item →
        (pick_item_up object_id g objects).2 = swap_remove objects object_id
        ∧ (item.equipment = none →
            (pick_item_up object_id g objects).1.inventory = g.inventory ++ [item])
        ∧ (∀ e : Equipment, item.equipment = some e → e.equipped = false →
            item.item.isSome = true →
            get_equipped_in_slot e.slot g.inventory = none →
            (pick_item_up object_id g objects).1.inventory
              = g.inventory ++ [{ item with equipment := some { e with equipped := true } }])) := by
  constructor
  · intro hfull
    unfold pick_item_up
    rw [if_pos hfull]
    exact ⟨rfl, rfl, rfl⟩
  · intro item hlen hid
    have h1 : ¬ (MAX_INVENTORY_SIZE ≤ g.inventory.length) := by omega
    refine ⟨pick_item_up_roster object_id g objects item hlen hid, ?_, ?_⟩
    · intro he
      unfold pick_item_up
      rw [if_neg h1]
      simp only [hid, he, Option.map_none']
      rfl
    · intro e he heq hit hpre
      have hpredF : (item.equipment.map
          (fun e2 => e2.equipped && decide (e2.slot = e.slot))).getD false = false := by
        rw [he]
        simp [heq]
      have hpost : get_equipped_in_slot e.slot (g.inventory ++ [item]) = none := by
        unfold get_equipped_in_slot at hpre ⊢
        rw [List.findIdx?_eq_none_iff] at hpre ⊢
        intro x hx
        rcases List.mem_append.mp hx with hx1 | hx2
        · exact hpre x hx1
        · have hxi : x = item := by simpa using hx2
          subst hxi
          simpa using hpredF
      unfold pick_item_up
      rw [if_neg h1]
      simp only [hid, he, Option.map_some']
      simp only [show (g.addMsg ("You picked up " ++ item.name ++ "!") Color.GREEN).inventory
        = g.inventory from rfl]
      simp only [hpost, Option.isNone_none, ite_true, List.getElem?_concat_length]
      rw [equip_unequipped item e _ hit he heq]
      simp only [set_concat_length]

/-- The sword equipment block generated by place_objects (map.rs). -/
def swordEquipment : Equipment :=
  { slot := Slot.RightHand
    equipped := false
    max_hp_bonus := 0
    power_bonus := 3
    defense_bonus := 0
    magic_bonus := 0 }

/-- A sword entity lying on the floor (map.rs place_objects). -/
def swordObj : Obj :=
  { x := 1
    y := 1
    char := '/'
    color := Color.CYAN
    name := "sword"
    blocks := false
    alive := false
    fighter := none
    ai := none
    item := some Item.Sword
    equipment := some swordEquipment
    always_visible := true
    level := 1
    poisoned := false }

/-- C8 witness: picking the sword up from a two-entity roster with an empty
inventory removes it from the roster, appends it to the inventory and
auto-equips it. -/
theorem pick_item_up_spec_witness :
    (pick_item_up 1 emptyGame [xp350Player, swordObj]).2 = [xp350Player]
    ∧ (pick_item_up 1 emptyGame [xp350Player, swordObj]).1.inventory
        = [{ swordObj with equipment := some { swordEquipment with equipped := true } }] := by
  have h := (pick_item_up_spec 1 emptyGame [xp350Player, swordObj]).2 swordObj
    (by decide) rfl
  refine ⟨?_, ?_⟩
  · rw [h.1]
    rfl
  · rw [h.2.2 swordEquipment rfl rfl rfl rfl]
    rfl

/-- C10 witness: picking index 1 out of a three-entity roster moves the last
entity into index 1 and keeps the player at index 0. -/
theorem pick_item_up_swap_remove_frame_witness :
    (pick_item_up 1 emptyGame [xp350Player, swordObj, orcObj]).2.length = 2
    ∧ (pick_item_up 1 emptyGame [xp350Player, swordObj, orcObj]).2[0]? = some xp350Player
    ∧ (pick_item_up 1 emptyGame [xp350Player, swordObj, orcObj]).2[1]? = some orcObj := by
  have h := pick_item_up_swap_remove_frame 1 emptyGame [xp350Player, swordObj, orcObj]
    swordObj (by decide) rfl
  exact ⟨h.1, (h.2.2.2 (by decide)).trans rfl, (h.2.2.1 (by decide)).trans rfl⟩

/-!  C2 — confusion duration. -/

/-- The k-fold composition of the random steps a confused monster takes:
step j uses the two `gen_range(-1, 2)` draws `rng j`. -/
def run_moves (id : Nat) (rng : Nat → Int × Int) (m : Map) : Nat → List Obj → List Obj
  | 0, objs => objs
  | k + 1, objs => move_by id (rng k).1 (rng k).2 m (run_moves id rng m k objs)

/-- While the evaluation count stays at most one above the starting counter,
every evaluation of a confused ai moves once and decrements, leaving the game
untouched. -/
theorem run_ai_confused_progress (id : Nat) (rng : Nat → Int × Int) (g : Game)
    (objs : List Obj) (p : Ai) (n : Int) (k : Nat) (hk : (k : Int) ≤ n + 1) :
    run_ai id rng k (Ai.Confused p n, g, objs)
      = (Ai.Confused p (n - k), g, run_moves id rng g.map k objs) := by
  induction k with
  | zero => simp [run_ai, run_moves]
  | succ k ih =>
    have hk2 : (k : Int) ≤ n + 1 := by push_cast at hk ⊢; omega
    have hnn : 0 ≤ n - k := by push_cast at hk ⊢; omega
    rw [run_ai, ih hk2]
    show ai_confused id g (run_moves id rng g.map k objs) p (n - k) (rng k).1 (rng k).2
      = (Ai.Confused p (n - (k + 1 : Nat)), g, run_moves id rng g.map (k + 1) objs)
    rw [ai_confused, if_pos hnn]
    have harith : n - (k : Int) - 1 = n - ((k + 1 : Nat) : Int) := by push_cast; ring
    rw [harith]
    rfl

/-- A fixed stream of random draws that always stays in place. -/
def zeroRng : Nat → Int × Int := fun _ => (0, 0)

/-- C2 counterexample: starting from the AI installed by cast_confuse on a
Basic monster (Confused{Basic, 10}), after 11 evaluations the monster is
still confused with counter -1 — the 11th evaluation performed another random
move instead of restoring, no restoration message has been logged and the AI
has not reverted to Basic, contrary to the claimed 10 moves with restoration
on the 11th evaluation. -/
theorem confused_eleventh_eval_still_random :
    (run_ai 0 zeroRng 11 (cast_confuse_new_ai (some Ai.Basic), emptyGame, [orcObj])).1
      = Ai.Confused Ai.Basic (-1)
    ∧ (run_ai 0 zeroRng 11 (cast_confuse_new_ai (some Ai.Basic), emptyGame, [orcObj])).1
      ≠ Ai.Basic
    ∧ (run_ai 0 zeroRng 11 (cast_confuse_new_ai (some Ai.Basic), emptyGame, [orcObj])).2.1.messages
      = [] := by
  have hs : cast_confuse_new_ai (some Ai.Basic) = Ai.Confused Ai.Basic CONFUSE_NUM_TURNS := rfl
  have h := run_ai_confused_progress 0 zeroRng emptyGame [orcObj] Ai.Basic CONFUSE_NUM_TURNS 11
    (by rw [CONFUSE_NUM_TURNS]; omega)
  refine ⟨?_, ?_, ?_⟩
  · rw [hs, h]
    decide
  · rw [hs, h]
    decide
  · rw [hs, h]
    rfl

/-- C2 (amended): from Confused{previous: Basic, num_turns: 10} (the state
cast_confuse installs), every evaluation with a nonnegative counter performs
one random step — a move_by with the two draws from the random source, each in
two neighboring squares or staying — and decrements the counter; evaluations
1 through 11 all move (counter 10 down through 0, reaching -1 after the
11th), and the restoration (message logged, AI replaced by the wrapped Basic)
happens on the 12th evaluation, the first one that sees a negative counter. -/
theorem confused_eleven_moves_restore_on_twelfth (id : Nat) (rng : Nat → Int × Int)
    (g : Game) (objs : List Obj) :
    (∀ k : Nat, k ≤ 11 →
      (run_ai id rng k (cast_confuse_new_ai (some Ai.Basic), g, objs)).1
        = Ai.Confused Ai.Basic (CONFUSE_NUM_TURNS - k)
      ∧ (run_ai id rng k (cast_confuse_new_ai (some Ai.Basic), g, objs)).2.1 = g)
    ∧ (∀ k : Nat, k ≤ 10 →
        (run_ai id rng (k + 1) (cast_confuse_new_ai (some Ai.Basic), g, objs)).2.2
          = move_by id (rng k).1 (rng k).2 g.map
              ((run_ai id rng k (cast_confuse_new_ai (some Ai.Basic), g, objs)).2.2))
    ∧ (run_ai id rng 12 (cast_confuse_new_ai (some Ai.Basic), g, objs)).1 = Ai.Basic
    ∧ (run_ai id rng 12 (cast_confuse_new_ai (some Ai.Basic), g, objs)).2.1.messages
        = g.messages ++ [("The "
            ++ (((run_ai id rng 11 (cast_confuse_new_ai (some Ai.Basic), g, objs)).2.2[id]?).map
                (fun o => o.name)).getD ""
            ++ " is no longer confused!", Color.RED)] := by
  have hprog : ∀ k : Nat, (k : Int) ≤ 11 →
      run_ai id rng k (cast_confuse_new_ai (some Ai.Basic), g, objs)
        = (Ai.Confused Ai.Basic (CONFUSE_NUM_TURNS - k), g, run_moves id rng g.map k objs) :=
    fun k hk => run_ai_confused_progress id rng g objs Ai.Basic CONFUSE_NUM_TURNS k
      (by rw [CONFUSE_NUM_TURNS]; omega)
  have h12 : run_ai id rng 12 (cast_confuse_new_ai (some Ai.Basic), g, objs)
      = (Ai.Basic,
         g.addMsg ("The "
           ++ (((run_moves id rng g.map 11 objs)[id]?).map (fun o => o.name)).getD ""
           ++ " is no longer confused!") Color.RED,
         run_moves id rng g.map 11 objs) := by
    rw [show (12 : Nat) = 11 + 1 from rfl, run_ai, hprog 11 (by omega)]
    show ai_confused id g (run_moves id rng g.map 11 objs) Ai.Basic
      (CONFUSE_NUM_TURNS - (11 : Nat)) (rng 11).1 (rng 11).2 = _
    rw [ai_confused, if_neg (by rw [CONFUSE_NUM_TURNS]; norm_num)]
  refine ⟨?_, ?_, ?_, ?_⟩
  · intro k hk
    rw [hprog k (by omega)]
    exact ⟨rfl, rfl⟩
  · intro k hk
    rw [hprog k (by omega), hprog (k + 1) (by push_cast; omega)]
    rfl
  · rw [h12]
  · have hproj : (run_ai id rng 11 (cast_confuse_new_ai (some Ai.Basic), g, objs)).2.2
        = run_moves id rng g.map 11 objs := by
      rw [hprog 11 (by omega)]
    rw [hproj, h12]
    rfl

/-- C2 witness: with a concrete monster, map and draw stream, evaluation 11
leaves the AI at Confused{Basic, -1} and evaluation 12 restores Basic. -/
theorem confused_eleven_moves_restore_on_twelfth_witness :
    (run_ai 0 zeroRng 11 (cast_confuse_new_ai (some Ai.Basic), emptyGame, [xp350Player])).1
      = Ai.Confused Ai.Basic (-1)
    ∧ (run_ai 0 zeroRng 12 (cast_confuse_new_ai (some Ai.Basic), emptyGame, [xp350Player])).1
      = Ai.Basic := by
  have h := confused_eleven_moves_restore_on_twelfth 0 zeroRng emptyGame [xp350Player]
  exact ⟨((h.1 11 (by decide)).1).trans (by decide), h.2.2.1⟩

end Rogue
